import Mathlib

/-!
# PDOException (src/system/gen/cls/PDOException.h)

A shallow embedding of the generated class `c_PDOException` and of its
constructor

    c_PDOException(const ObjectStaticCallbacks *cb = &cw_PDOException) : c_Exception(cb) {
      if (!hhvm) setAttribute(NoDestructor);
    }

The header only *uses* the runtime object model (`ObjectData`, its attribute
word, the callback tables) and the base class `c_Exception`; what it uses of
them is kept abstract (`Externs`) or modelled in the smallest way that lets the
constructor body be read off line by line.
-/

namespace HPHP

/-- Address of an `ObjectStaticCallbacks` table, the type
`const ObjectStaticCallbacks *` of the constructor argument `cb`. -/
abbrev CallbacksPtr := Nat

/-- Name of an object attribute flag (such as `NoDestructor`), given as the
position of its bit in the attribute word of the object. -/
abbrev Attribute := Nat

/-- Modelled from the spec: the runtime class `ObjectData` is only referenced by
the header ("ObjectData, sweep/no-destructor attributes, class callback tables").
An object carries the callback table it was constructed with and a word of
attribute flags. -/
structure ObjectData where
  o_callbacks : CallbacksPtr
  o_attribute : Nat
deriving DecidableEq

/-- Modelled from the spec: `ObjectData::setAttribute` is called by the
constructor but declared in the runtime; it switches the flag `attr` on in the
attribute word (`o_attribute |= attr`) and touches nothing else. -/
def ObjectData.setAttribute (o : ObjectData) (attr : Attribute) : ObjectData :=
  { o with o_attribute := o.o_attribute ||| 2 ^ attr }

/-- Modelled from the spec: `ObjectData::getAttribute`, the reader of the flag
`attr` ("the NoDestructor attribute"): whether its bit is on. -/
def ObjectData.getAttribute (o : ObjectData) (attr : Attribute) : Bool :=
  o.o_attribute.testBit attr

/-- State of a `c_Exception` object: its `ObjectData` part and the properties the
class declares (`cls/Exception.h` is not part of the file; the properties are
kept abstract as `Props`). -/
structure c_Exception (Props : Type) extends ObjectData where
  props : Props
deriving DecidableEq

/-- State of a `c_PDOException` object, `class c_PDOException : public c_Exception`
with an empty `// Properties` section: the base part and no member of its own. -/
structure c_PDOException (Props : Type) extends c_Exception Props
deriving DecidableEq

/-- The method `setAttribute` as inherited by `c_Exception`: it acts on the
`ObjectData` part. -/
def c_Exception.setAttribute {Props : Type} (e : c_Exception Props) (attr : Attribute) :
    c_Exception Props :=
  { e with toObjectData := e.toObjectData.setAttribute attr }

/-- The method `setAttribute` as inherited by `c_PDOException`. -/
def c_PDOException.setAttribute {Props : Type} (self : c_PDOException Props)
    (attr : Attribute) : c_PDOException Props :=
  { self with toc_Exception := self.toc_Exception.setAttribute attr }

/-- What the header takes from elsewhere: the enumerator `NoDestructor`, the
address of the extern table `cw_PDOException`, and the base class constructor
`c_Exception(cb)`, which yields the base object for a callback table. -/
structure Externs (Props : Type) where
  NoDestructor : Attribute
  cw_PDOException : CallbacksPtr
  c_Exception : CallbacksPtr → HPHP.c_Exception Props

/-- The constructor `c_PDOException::c_PDOException`. The argument is `none` when
the caller passes nothing, and the default `&cw_PDOException` is used; the base
is initialised by `c_Exception(cb)`; then `if (!hhvm) setAttribute(NoDestructor)`. -/
def c_PDOException.ctor {Props : Type} (ext : Externs Props) (hhvm : Bool)
    (cb : Option CallbacksPtr) : c_PDOException Props :=
  let self : c_PDOException Props :=
    { toc_Exception := ext.c_Exception (cb.getD ext.cw_PDOException) }
  if !hhvm then self.setAttribute ext.NoDestructor else self

/-- A concrete environment used to evaluate the constructor: the flag
`NoDestructor` is bit 9, the table `cw_PDOException` lives at address 4096, and
the base constructor stores the table and leaves every attribute off. -/
def sampleExterns : Externs Nat where
  NoDestructor := 9
  cw_PDOException := 4096
  c_Exception := fun cb => { o_callbacks := cb, o_attribute := 0, props := 0 }

/-- A concrete environment whose base constructor already switches `NoDestructor`
(bit 9) on, next to another flag (bit 0). -/
def sampleExternsSet : Externs Nat where
  NoDestructor := 9
  cw_PDOException := 4096
  c_Exception := fun cb => { o_callbacks := cb, o_attribute := 513, props := 0 }

/-! ## The constructor on concrete inputs -/

/-- Evaluation: with `hhvm` false the constructor switches bit 9 on (word 512), with
`hhvm` true it leaves the word of the base object (0). -/
theorem ctor_sample_attribute :
    (c_PDOException.ctor sampleExterns false none).o_attribute = 512 ∧
    (c_PDOException.ctor sampleExterns true none).o_attribute = 0 := by
  decide

/-- Evaluation: the callback table is the argument when one is passed and
`&cw_PDOException` (4096) when none is. -/
theorem ctor_sample_callbacks :
    (c_PDOException.ctor sampleExterns false (some 7)).o_callbacks = 7 ∧
    (c_PDOException.ctor sampleExterns false none).o_callbacks = 4096 := by
  decide

/-- Evaluation: a base object that already has bit 9 on (word 513) is left as it
is by the constructor, whatever `hhvm` is. -/
theorem ctor_sample_already_set :
    (c_PDOException.ctor sampleExternsSet false none).o_attribute = 513 ∧
    (c_PDOException.ctor sampleExternsSet true none).o_attribute = 513 := by
  decide

/-! ## Helper facts about the attribute word -/

/-- Switching a flag on makes its reader answer `true`. -/
theorem ObjectData.getAttribute_setAttribute_self (o : ObjectData) (a : Attribute) :
    (o.setAttribute a).getAttribute a = true := by
  simp [ObjectData.getAttribute, ObjectData.setAttribute, Nat.testBit_or, Nat.testBit_two_pow]

/-- Switching a flag on leaves the reader of every other flag unchanged. -/
theorem ObjectData.getAttribute_setAttribute_of_ne (o : ObjectData) {a b : Attribute}
    (h : b ≠ a) : (o.setAttribute a).getAttribute b = o.getAttribute b := by
  have h2 : ¬ a = b := fun e => h e.symm
  simp [ObjectData.getAttribute, ObjectData.setAttribute, Nat.testBit_or, Nat.testBit_two_pow, h2]

/-- Switching a flag on changes the attribute word exactly when the flag was off. -/
theorem ObjectData.setAttribute_eq_self_iff (o : ObjectData) (a : Attribute) :
    o.setAttribute a = o ↔ o.getAttribute a = true := by
  constructor
  · intro h
    have h2 := ObjectData.getAttribute_setAttribute_self o a
    rw [h] at h2
    exact h2
  · intro h
    have h3 : o.o_attribute ||| 2 ^ a = o.o_attribute := by
      apply Nat.eq_of_testBit_eq
      intro i
      rw [Nat.testBit_or, Nat.testBit_two_pow]
      by_cases hi : a = i
      · subst hi
        simp [ObjectData.getAttribute] at h
        simp [h]
      · simp [hi]
    cases o with
    | mk c w =>
      simp only [ObjectData.setAttribute] at h3 ⊢
      rw [h3]

/-- The same on a `c_Exception` object. -/
theorem c_Exception.setAttribute_fixed_iff {Props : Type} (e : c_Exception Props)
    (a : Attribute) : e.setAttribute a = e ↔ e.getAttribute a = true := by
  rw [← ObjectData.setAttribute_eq_self_iff]
  cases e with
  | mk o p =>
    simp [c_Exception.setAttribute]

/-- With `hhvm` on, the constructed object is the base object, untouched. -/
theorem c_PDOException.ctor_hhvm {Props : Type} (ext : Externs Props)
    (cb : Option CallbacksPtr) :
    (c_PDOException.ctor ext true cb).toc_Exception =
      ext.c_Exception (cb.getD ext.cw_PDOException) := by
  simp [c_PDOException.ctor]

/-- With `hhvm` off, the constructed object is the base object with `NoDestructor`
switched on. -/
theorem c_PDOException.ctor_not_hhvm {Props : Type} (ext : Externs Props)
    (cb : Option CallbacksPtr) :
    (c_PDOException.ctor ext false cb).toc_Exception =
      (ext.c_Exception (cb.getD ext.cw_PDOException)).setAttribute ext.NoDestructor := by
  simp [c_PDOException.ctor, c_PDOException.setAttribute]

/-- With `hhvm` off, the constructed state coincides with the state of the base
object exactly when the base constructor already left `NoDestructor` on. -/
theorem c_PDOException.ctor_not_hhvm_eq_base_iff {Props : Type} (ext : Externs Props)
    (cb : Option CallbacksPtr) :
    (c_PDOException.ctor ext false cb).toc_Exception =
        ext.c_Exception (cb.getD ext.cw_PDOException) ↔
      (ext.c_Exception (cb.getD ext.cw_PDOException)).getAttribute ext.NoDestructor = true := by
  rw [c_PDOException.ctor_not_hhvm]
  exact c_Exception.setAttribute_fixed_iff _ _

/-! ## The claims -/

/-- C2: for every callbacks argument `cb`, with `hhvm` false the constructed object
has the `NoDestructor` attribute set; with `hhvm` true the base part is exactly
the object the base constructor `c_Exception(cb)` produced, so the `NoDestructor`
attribute has the value the base constructor left. -/
theorem noDestructor_only_without_hhvm {Props : Type} (ext : Externs Props)
    (cb : CallbacksPtr) :
    (c_PDOException.ctor ext false (some cb)).getAttribute ext.NoDestructor = true ∧
    (c_PDOException.ctor ext true (some cb)).toc_Exception = ext.c_Exception cb ∧
    (c_PDOException.ctor ext true (some cb)).getAttribute ext.NoDestructor =
      (ext.c_Exception cb).getAttribute ext.NoDestructor := by
  refine ⟨?_, c_PDOException.ctor_hhvm ext (some cb), ?_⟩
  · rw [c_PDOException.ctor_not_hhvm]
    exact ObjectData.getAttribute_setAttribute_self _ _
  · rw [c_PDOException.ctor_hhvm]
    rfl

/-- C4: a `c_PDOException` object has no state of its own: the projection to its
`c_Exception` base part is a bijection. -/
theorem toc_Exception_bijective {Props : Type} :
    Function.Bijective
      (c_PDOException.toc_Exception : c_PDOException Props → c_Exception Props) := by
  constructor
  · intro a b h
    cases a
    cases b
    cases h
    rfl
  · intro e
    exact ⟨{ toc_Exception := e }, rfl⟩

/-- C5: for every `cb` the base part of `c_PDOException(cb)` is the object built
by `c_Exception(cb)` (followed by the `NoDestructor` step when `hhvm` is false),
and constructing with no argument gives the same object as constructing with
`&cw_PDOException`. -/
theorem ctor_forwards_callbacks {Props : Type} (ext : Externs Props) (hhvm : Bool)
    (cb : CallbacksPtr) :
    (c_PDOException.ctor ext hhvm (some cb)).toc_Exception =
      (if hhvm then ext.c_Exception cb
        else (ext.c_Exception cb).setAttribute ext.NoDestructor) ∧
    c_PDOException.ctor ext hhvm none =
      c_PDOException.ctor ext hhvm (some ext.cw_PDOException) := by
  constructor
  · cases hhvm
    · exact c_PDOException.ctor_not_hhvm ext (some cb)
    · exact c_PDOException.ctor_hhvm ext (some cb)
  · rfl

/-- C6: for every `cb`, every value of `hhvm` and every attribute `a` other than
`NoDestructor`, the object produced by `c_PDOException(cb)` agrees with the object
produced by `c_Exception(cb)` on the callbacks pointer, on the inherited
properties and on the attribute `a`. -/
theorem ctor_frame {Props : Type} (ext : Externs Props) (hhvm : Bool)
    (cb : CallbacksPtr) (a : Attribute) (h : a ≠ ext.NoDestructor) :
    (c_PDOException.ctor ext hhvm (some cb)).o_callbacks =
      (ext.c_Exception cb).o_callbacks ∧
    (c_PDOException.ctor ext hhvm (some cb)).props = (ext.c_Exception cb).props ∧
    (c_PDOException.ctor ext hhvm (some cb)).getAttribute a =
      (ext.c_Exception cb).getAttribute a := by
  cases hhvm
  · refine ⟨rfl, rfl, ?_⟩
    rw [c_PDOException.ctor_not_hhvm]
    exact ObjectData.getAttribute_setAttribute_of_ne _ h
  · refine ⟨rfl, rfl, ?_⟩
    rw [c_PDOException.ctor_hhvm]
    rfl

/-- Witness for C6: flag 0 is not `NoDestructor` (bit 9); the base constructor of
`sampleExternsSet` leaves it on, and so does the constructor with `hhvm` false. -/
theorem ctor_frame_witness :
    (0 : Attribute) ≠ sampleExternsSet.NoDestructor ∧
    (c_PDOException.ctor sampleExternsSet false (some 7)).o_callbacks = 7 ∧
    (c_PDOException.ctor sampleExternsSet false (some 7)).getAttribute 0 = true :=
  ⟨by decide, (ctor_frame sampleExternsSet false 7 0 (by decide)).1,
    (ctor_frame sampleExternsSet false 7 0 (by decide)).2.2⟩

end HPHP
